import Mathlib

/-
Verification of the mycoria link layer (peering/link.go) and the ping/pong
handler (router/ping_pong.go) against their natural-language specification.

The Go code is shallowly embedded: channels become lists (head = next element
to be received), the per-link mutable fields become a LinkState record that is
threaded explicitly, fallible calls return Option/Except, and external
collaborators (the connection, the frame builder, the handshake state machine,
the random label generator) become explicit parameters recording the outcome
of each call.
-/

set_option autoImplicit false

namespace Mycoria

/-- Frames are abstracted by a numeric tag; the link layer never inspects
frame contents when queueing or dropping them. -/
abbrev Frame := Nat

/-- Ownership-relevant events an operation performs on a frame, used to track
the pool discipline (frame.ReturnToPool) and queue admission. -/
inductive FrameEvent
  | enqueuedPrio
  | enqueuedRegl
  | returnedToPool
  | sealedData
  | wroteData
  deriving BEq, DecidableEq, Repr

/-- Capacity of the priority send queue, from make(chan frame.Frame, 100) in
newLinkBase. -/
def prioQueueCap : Nat := 100

/-- Capacity of the regular send queue, from make(chan frame.Frame, 1000) in
newLinkBase. -/
def reglQueueCap : Nat := 1000

/-- Mutable link state relevant to the send paths: the two bounded send
queues (modelled as lists, head = next frame the writer receives), the
closing flag, and the seeded latency. -/
structure LinkState where
  sendQueuePrio : List Frame
  sendQueueRegl : List Frame
  closing : Bool
  latency : Nat
  deriving DecidableEq, Repr

/-- IsClosing returns the closing flag (link.closing.Load()). -/
def LinkState.IsClosing (link : LinkState) : Bool :=
  link.closing

/-- SendPriority performs a non-blocking offer on the priority queue
(select with a default branch) and always returns a nil error. The frame is
enqueued when the channel has a free slot and silently dropped otherwise;
the drop branch performs no operation on the frame. -/
def LinkState.SendPriority (link : LinkState) (f : Frame) :
    LinkState × Option Unit × List FrameEvent :=
  if link.sendQueuePrio.length < prioQueueCap then
    ({ link with sendQueuePrio := link.sendQueuePrio ++ [f] }, none,
      [FrameEvent.enqueuedPrio])
  else
    (link, none, [])

/-- Send performs a non-blocking offer on the regular queue (select with a
default branch) and always returns a nil error. The frame is enqueued when
the channel has a free slot and silently dropped otherwise; the drop branch
performs no operation on the frame. -/
def LinkState.Send (link : LinkState) (f : Frame) :
    LinkState × Option Unit × List FrameEvent :=
  if link.sendQueueRegl.length < reglQueueCap then
    ({ link with sendQueueRegl := link.sendQueueRegl ++ [f] }, none,
      [FrameEvent.enqueuedRegl])
  else
    (link, none, [])

/-- Flow control flags frame.FlowControlFlag, as used by
FlowControlIndicator. -/
inductive FlowControlFlag
  | increaseFlow
  | holdFlow
  | decreaseFlow
  deriving BEq, DecidableEq, Repr

/-- FlowControlIndicator computes the pressure flag from the regular send
queue only: len(sendQueueRegl) * 100 / cap(sendQueueRegl), then >= 70 gives
DecreaseFlow, >= 30 gives HoldFlow, anything below gives IncreaseFlow. -/
def LinkState.FlowControlIndicator (link : LinkState) : FlowControlFlag :=
  let percent := link.sendQueueRegl.length * 100 / reglQueueCap
  if percent ≥ 70 then FlowControlFlag.decreaseFlow
  else if percent ≥ 30 then FlowControlFlag.holdFlow
  else FlowControlFlag.increaseFlow

/-- Outcome of one frame selection step of the writer loop. -/
inductive WriterPick
  | fromPrio (f : Frame)
  | fromRegl (f : Frame)
  | shutdown
  | blocked
  deriving DecidableEq, Repr

/-- One iteration of the writer loop frame selection: the outer
non-blocking select takes from the priority queue whenever it is ready,
otherwise the inner select waits on both queues and the done signal. The
embedding is deterministic on a snapshot of both queues: when the priority
queue is empty, a ready regular queue is preferred over the done signal
(Go would pick among ready cases arbitrarily; the priority property under
scrutiny only concerns a non-empty priority queue, which the outer select
commits to before the race can matter). -/
def writerSelect (prioQ reglQ : List Frame) (done : Bool) :
    WriterPick × List Frame × List Frame :=
  match prioQ with
  | f :: restP => (WriterPick.fromPrio f, restP, reglQ)
  | [] =>
    match reglQ with
    | g :: restR => (WriterPick.fromRegl g, [], restR)
    | [] =>
      if done then (WriterPick.shutdown, [], [])
      else (WriterPick.blocked, [], [])

/-- Frames written by the writer, in order, when it repeatedly selects from
a snapshot of both queues with no concurrent senders and the done signal
set (so it shuts down once both queues are empty). Fuel bounds the number
of iterations; queueLength + 1 always suffices. -/
def writerDrain (fuel : Nat) (prioQ reglQ : List Frame) : List Frame :=
  match fuel with
  | 0 => []
  | fuel + 1 =>
    match writerSelect prioQ reglQ true with
    | (WriterPick.fromPrio f, p, r) => f :: writerDrain fuel p r
    | (WriterPick.fromRegl f, p, r) => f :: writerDrain fuel p r
    | _ => []

/-- Errors of readLengthAndData. The network constructor models errors that
wrap ErrNetworkReadError (i/o failure, EOF); invalidLength and tooBig are
the two non-network errors produced by the length validation. -/
inductive ReadErr
  | network
  | invalidLength (n : Nat)
  | tooBig
  deriving DecidableEq, Repr

/-- Modelled from the spec: the 2-byte length field is big-endian
(wire format: uint16_be_length). The source calls m.GetUint16, which is
outside the provided sources. -/
def GetUint16 (b : List Nat) : Nat :=
  256 * b.headD 0 + b.getD 1 0

/-- One conn.Read call on a byte stream: it fails (EOF or i/o error) when
the stream is empty, and otherwise delivers the first min want length bytes.
Go only guarantees 1 to want bytes per call; the deterministic model
delivers as many as are available, and the surrounding loops below make the
results insensitive to this choice. -/
def connRead (want : Nat) (stream : List Nat) :
    Option (List Nat × List Nat) :=
  match stream with
  | [] => none
  | _ => some (stream.take want, stream.drop want)

/-- Embedding of the read-until loops of readLengthAndData
(for read < target : n, err := conn.Read(slice); read += n). The slice
handed to each Read call has length min cap (target - readSoFar); acc
gathers the bytes read so far and readSoFar counts all bytes consumed since
the start of the record, so the loops can resume at readSoFar = 2 after the
length field. Fuel makes the recursion structural; length stream + 1 always
suffices because every successful Read consumes at least one byte. -/
def readLoop (fuel cap target readSoFar : Nat) (acc stream : List Nat) :
    Option (List Nat × List Nat) :=
  match fuel with
  | 0 => none
  | fuel + 1 =>
    if target ≤ readSoFar then some (acc, stream)
    else
      match connRead (min cap (target - readSoFar)) stream with
      | none => none
      | some (chunk, rest) =>
        readLoop fuel cap target (readSoFar + chunk.length) (acc ++ chunk)
          rest

/-- readLengthAndData over a byte stream: read exactly 2 length bytes (into
to[0:2]), reject an announced length of at most 3, drain and discard
dataLen - 2 further bytes in chunks of at most the buffer length when the
announced length exceeds the buffer (returning the non-network tooBig
error), and otherwise read the remaining dataLen - 2 bytes after the length
field and return to[:dataLen]. The second component is the unread remainder
of the stream; on a network error the stream was exhausted mid-read. -/
def readLengthAndData (bufLen : Nat) (stream : List Nat) :
    Except ReadErr (List Nat) × List Nat :=
  match readLoop (stream.length + 1) 2 2 0 [] stream with
  | none => (Except.error ReadErr.network, [])
  | some (lenBytes, rest1) =>
    let dataLen := GetUint16 lenBytes
    if dataLen ≤ 3 then
      (Except.error (ReadErr.invalidLength dataLen), rest1)
    else if bufLen < dataLen then
      match readLoop (rest1.length + 1) bufLen dataLen 2 [] rest1 with
      | none => (Except.error ReadErr.network, [])
      | some (_, rest2) => (Except.error ReadErr.tooBig, rest2)
    else
      match readLoop (rest1.length + 1) dataLen dataLen 2 lenBytes rest1 with
      | none => (Except.error ReadErr.network, [])
      | some (data, rest2) => (Except.ok data, rest2)

/-- Outcome of one state.handle step of the handshake state machine: an
error (possibly carrying a best-effort response frame), a response frame to
send back, or completion (nil response, nil error). -/
inductive HandleStep
  | fail (response : Option Frame)
  | respond (f : Frame)
  | done
  deriving DecidableEq, Repr

/-- Environment of one handleSetupMessages run: the outcome of
createPeeringRequest (the initial frame, or none on error), the readFrame
result before handling message i (none models a read error), the handle
outcome for message i, and whether writeFrame succeeds on a given frame. -/
structure SetupEnv where
  createOutcome : Option Frame
  readOutcome : Nat → Option Frame
  handleOutcome : Nat → Frame → HandleStep
  writeOk : Frame → Bool

/-- Errors of handleSetupMessages, tagged with the message index that
produced them; tooMuchSetup is returned when the loop over i = 1..3 ends
with the state machine still producing responses. -/
inductive SetupErr
  | createReq
  | writeReq
  | readMsg (i : Nat)
  | handleMsg (i : Nat)
  | writeResp (i : Nat)
  | tooMuchSetup
  deriving DecidableEq, Repr

/-- The for i := 1; i <= 3 loop of handleSetupMessages: read the next setup
message, hand it to the state machine (writing an error response is best
effort and does not change the result), finish when the machine yields no
response, otherwise write the response and continue; when the iterations
are exhausted the setup fails with tooMuchSetup. remaining counts the loop
iterations still allowed (3 at entry). -/
def setupLoop (env : SetupEnv) (i : Nat) : Nat → Except SetupErr Unit
  | 0 => Except.error SetupErr.tooMuchSetup
  | remaining + 1 =>
    match env.readOutcome i with
    | none => Except.error (SetupErr.readMsg i)
    | some f =>
      match env.handleOutcome i f with
      | HandleStep.fail _ => Except.error (SetupErr.handleMsg i)
      | HandleStep.done => Except.ok ()
      | HandleStep.respond g =>
        if env.writeOk g then setupLoop env (i + 1) remaining
        else Except.error (SetupErr.writeResp i)

/-- handleSetupMessages: create and write the initial peering request, then
run the three-iteration setup loop. -/
def handleSetupMessages (env : SetupEnv) : Except SetupErr Unit :=
  match env.createOutcome with
  | none => Except.error SetupErr.createReq
  | some f0 =>
    if env.writeOk f0 then setupLoop env 1 3
    else Except.error SetupErr.writeReq

/-- Error of the full setup chain in handleSetup: a handshake error, or a
failure of peeringState.finalize, assignSwitchLabel or peering.AddLink. -/
inductive SetupChainErr
  | fromMessages (e : SetupErr)
  | finalizeErr
  | labelErr
  | addLinkErr
  deriving DecidableEq, Repr

/-- Observable outcome of handleSetup: the error of the chained setup steps
(none on success), whether the link ended up registered in the peering
registry, whether the reader and writer workers were started, and whether
the link was closed. -/
structure SetupOutcome where
  err : Option SetupChainErr
  registered : Bool
  workersStarted : Bool
  closed : Bool
  deriving DecidableEq, Repr

/-- handleSetup: run handleSetupMessages, then (while err == nil) finalize
the peering state, assign a switch label and add the link to the registry;
on any error close the link and return the error, otherwise start the
reader and writer workers. finalizeOk, labelOk and addOk record whether the
respective chained call succeeds. -/
def handleSetup (env : SetupEnv) (finalizeOk labelOk addOk : Bool) :
    SetupOutcome :=
  let chainErr : Option SetupChainErr :=
    match handleSetupMessages env with
    | Except.error e => some (SetupChainErr.fromMessages e)
    | Except.ok _ =>
      if finalizeOk = false then some SetupChainErr.finalizeErr
      else if labelOk = false then some SetupChainErr.labelErr
      else if addOk = false then some SetupChainErr.addLinkErr
      else none
  match chainErr with
  | some e =>
    { err := some e, registered := false, workersStarted := false,
      closed := true }
  | none =>
    { err := none, registered := true, workersStarted := true,
      closed := false }

/-- Environment of one assignSwitchLabel run: the outcome of
m.DeriveSwitchLabelFromIP on the peer IP (none when ok is false), whether a
label is already claimed by another link (peering.GetLinkByLabel(label) is
not nil), whether the peer IP is contained in the routable overlay address
range (m.RoutingAddressPrefix.Contains), and the successive outcomes of
m.GetRandomSwitchLabel for short and for long labels, indexed by attempt. -/
structure LabelEnv where
  derived : Option Nat
  claimed : Nat → Bool
  routable : Bool
  randShort : Nat → Option Nat
  randLong : Nat → Option Nat

/-- One bounded random-label loop of assignSwitchLabel: try the generator up
to remaining times starting at attempt index i, accepting the first label
that is generated (ok), non-zero and unclaimed. -/
def tryLabels (gen : Nat → Option Nat) (claimed : Nat → Bool)
    (i remaining : Nat) : Option Nat :=
  match remaining with
  | 0 => none
  | r + 1 =>
    match gen i with
    | some label =>
      if label ≠ 0 ∧ claimed label = false then some label
      else tryLabels gen claimed (i + 1) r
    | none => tryLabels gen claimed (i + 1) r

/-- assignSwitchLabel: accept the label derived from the peer IP when it is
generated, non-zero and unclaimed; otherwise, when the peer IP is routable,
try up to 100 random short labels; then (unconditionally, also for routable
peers whose short attempts all failed) try up to 1000 random long labels;
finally give up with none (the no-suitable-switch-label error). -/
def assignSwitchLabel (env : LabelEnv) : Option Nat :=
  let afterDerive : Option Nat :=
    match env.derived with
    | some label =>
      if label ≠ 0 ∧ env.claimed label = false then some label else none
    | none => none
  match afterDerive with
  | some label => some label
  | none =>
    let short : Option Nat :=
      if env.routable then tryLabels env.randShort env.claimed 0 100
      else none
    match short with
    | some label => some label
    | none => tryLabels env.randLong env.claimed 0 1000

/-- Modelled from the spec: the claimed else-chain of assignSwitchLabel in
which the long random labels are tried ONLY when the peer IP is not in the
routable address range (spec: else, if the peer IP falls in the routable
address range, try up to 100 random short labels; else try up to 1000
random long labels; else fail). Compared against assignSwitchLabel, which
is translated from the source. -/
def assignSwitchLabelSpec (env : LabelEnv) : Option Nat :=
  let afterDerive : Option Nat :=
    match env.derived with
    | some label =>
      if label ≠ 0 ∧ env.claimed label = false then some label else none
    | none => none
  match afterDerive with
  | some label => some label
  | none =>
    if env.routable then tryLabels env.randShort env.claimed 0 100
    else tryLabels env.randLong env.claimed 0 1000

/-- Bytes of an IPv4 address, as handed to getFallbackLatency through
net.TCPAddr, net.UDPAddr or net.IPAddr. -/
structure IPv4 where
  b0 : Nat
  b1 : Nat
  b2 : Nat
  b3 : Nat
  deriving DecidableEq, Repr

/-- Modelled from the Go standard library (net.IP.IsLoopback for IPv4):
first byte 127. -/
def IPv4.isLoopback (a : IPv4) : Bool :=
  a.b0 = 127

/-- Modelled from the Go standard library (net.IP.IsMulticast for IPv4):
first byte with high nibble 0xe, that is 224 to 239. -/
def IPv4.isMulticast (a : IPv4) : Bool :=
  224 ≤ a.b0 ∧ a.b0 ≤ 239

/-- Modelled from the Go standard library (net.IP.IsLinkLocalUnicast for
IPv4): 169.254.0.0/16. -/
def IPv4.isLinkLocalUnicast (a : IPv4) : Bool :=
  a.b0 = 169 ∧ a.b1 = 254

/-- Modelled from the Go standard library (net.IP.IsUnspecified for IPv4):
0.0.0.0. -/
def IPv4.isUnspecified (a : IPv4) : Bool :=
  a.b0 = 0 ∧ a.b1 = 0 ∧ a.b2 = 0 ∧ a.b3 = 0

/-- Modelled from the Go standard library (IPv4bcast): 255.255.255.255. -/
def IPv4.isBroadcast (a : IPv4) : Bool :=
  a.b0 = 255 ∧ a.b1 = 255 ∧ a.b2 = 255 ∧ a.b3 = 255

/-- Modelled from the Go standard library (net.IP.IsGlobalUnicast for
IPv4): everything except broadcast, unspecified, loopback, multicast and
link-local unicast; the Go documentation notes that this returns true also
for addresses in private address space. -/
def IPv4.isGlobalUnicast (a : IPv4) : Bool :=
  a.isBroadcast = false ∧ a.isUnspecified = false ∧ a.isLoopback = false ∧
    a.isMulticast = false ∧ a.isLinkLocalUnicast = false

/-- Modelled from the Go standard library (net.IP.IsPrivate for IPv4):
10.0.0.0/8, 172.16.0.0/12 and 192.168.0.0/16. -/
def IPv4.isPrivate (a : IPv4) : Bool :=
  a.b0 = 10 ∨ (a.b0 = 172 ∧ 16 ≤ a.b1 ∧ a.b1 ≤ 31) ∨
    (a.b0 = 192 ∧ a.b1 = 168)

/-- Remote address of the underlying connection, as switched on by
getFallbackLatency: a TCP, UDP or plain IP address (carrying an IPv4
address) or any other net.Addr. -/
inductive RemoteAddr
  | tcp (a : IPv4)
  | udp (a : IPv4)
  | ipAddr (a : IPv4)
  | other
  deriving DecidableEq, Repr

/-- getFallbackLatency: 20 for a remote address that is not a TCP, UDP or
IP address; otherwise 20 for a global unicast remote IP, 5 for a private
one, and 10 for everything else (loopback and the rest). The global unicast
test runs first. -/
def getFallbackLatency (addr : RemoteAddr) : Nat :=
  match addr with
  | RemoteAddr.other => 20
  | RemoteAddr.tcp a | RemoteAddr.udp a | RemoteAddr.ipAddr a =>
    if a.isGlobalUnicast then 20
    else if a.isPrivate then 5
    else 10

/-- newLinkBase: fresh empty queues, not closing, and the latency seeded
from the remote address class by getFallbackLatency. -/
def newLinkBase (remote : RemoteAddr) : LinkState :=
  { sendQueuePrio := [], sendQueueRegl := [], closing := false,
    latency := getFallbackLatency remote }

/-- Client-side state of one outstanding ping (pingPongState): the start
and expiry timestamps; the notify channel is modelled by the fired flag in
the result of handleResponse. -/
structure PingPongState where
  started : Nat
  expires : Nat
  deriving DecidableEq, Repr

/-- Errors of the ping/pong response handler. -/
inductive PingErr
  | noState
  | unmarshal
  | invalidResponse
  deriving DecidableEq, Repr

/-- The active map of the ping/pong handler, keyed by ping id (the Go map
under activeLock is embedded as a function). -/
abbrev PingActive := Nat → Option PingPongState

/-- pluckActive: look up the state registered under the ping id; when
present, delete it from the map and return it. -/
def pluckActive (active : PingActive) (pingID : Nat) :
    Option PingPongState × PingActive :=
  match active pingID with
  | none => (none, active)
  | some st =>
    (some st, fun j => if j = pingID then none else active j)

/-- handleResponse for a frame with FollowUp set: pluck the PingState by
the ping id of the header (error noState when absent), decode the payload
(decoded is none on a cbor.Unmarshal failure, otherwise the msg field),
require msg = pong, and close the notify channel. Returns the new active
map, the error (none on success) and whether the completion signal was
fired by this call. -/
def handleResponse (active : PingActive) (pingID : Nat)
    (decoded : Option String) : PingActive × Option PingErr × Bool :=
  match pluckActive active pingID with
  | (none, _) => (active, some PingErr.noState, false)
  | (some _, rest) =>
    match decoded with
    | none => (rest, some PingErr.unmarshal, false)
    | some msg =>
      if msg = "pong" then (rest, none, true)
      else (rest, some PingErr.invalidResponse, false)

/-- Clean: delete every registered PingState whose expiry timestamp lies
strictly in the past (now.After(expires)). -/
def cleanActive (active : PingActive) (now : Nat) : PingActive :=
  fun pingID =>
    match active pingID with
    | none => none
    | some st => if st.expires < now then none else some st

/-- Environment of one writeFrame call: whether the link has an encryption
session, whether f.FrameDataWithMargins succeeds for the margins used on
the taken path, whether LinkFrame.Seal succeeds, the length of the frame
data on the unencrypted path, and whether writeData succeeds. -/
structure WriteEnv where
  encSession : Bool
  marginsOk : Bool
  sealOk : Bool
  frameLen : Nat
  netWriteOk : Bool
  deriving DecidableEq, Repr

/-- Errors of writeFrame: margin computation failure, seal failure, frame
too big for the 16-bit length prefix of the unencrypted path, and network
write failure. -/
inductive WriteErr
  | margins
  | seal
  | tooBig (n : Nat)
  | write
  deriving DecidableEq, Repr

/-- writeFrame: defer f.ReturnToPool() runs on every return path, so each
branch of the embedding ends its event trace with returnedToPool. With an
encryption session: compute the frame data with the link margins, seal it
and write it; without: compute the data with margins 2,0, reject it when
longer than 0xFFFF, put the 16-bit length and write it. -/
def writeFrame (env : WriteEnv) : Except WriteErr Unit × List FrameEvent :=
  if env.encSession then
    if env.marginsOk = false then
      (Except.error WriteErr.margins, [FrameEvent.returnedToPool])
    else if env.sealOk = false then
      (Except.error WriteErr.seal, [FrameEvent.returnedToPool])
    else if env.netWriteOk = false then
      (Except.error WriteErr.write,
        [FrameEvent.sealedData, FrameEvent.returnedToPool])
    else
      (Except.ok (),
        [FrameEvent.sealedData, FrameEvent.wroteData,
          FrameEvent.returnedToPool])
  else
    if env.marginsOk = false then
      (Except.error WriteErr.margins, [FrameEvent.returnedToPool])
    else if 0xFFFF < env.frameLen then
      (Except.error (WriteErr.tooBig env.frameLen),
        [FrameEvent.returnedToPool])
    else if env.netWriteOk = false then
      (Except.error WriteErr.write, [FrameEvent.returnedToPool])
    else
      (Except.ok (), [FrameEvent.wroteData, FrameEvent.returnedToPool])

/-- Concrete link whose regular send queue is completely full. -/
def fullReglLink : LinkState :=
  { sendQueuePrio := [], sendQueueRegl := List.replicate reglQueueCap 0,
    closing := false, latency := 10 }

/-- Claim C1 counterexample: on a full regular queue, Send drops the frame
silently (queue unchanged, nil error) but performs no pool return at all,
refuting the part of the claim that says a dropped frame is still returned
to the pool by the drop path. -/
theorem send_drop_not_returned_cx :
    (fullReglLink.Send 7).1 = fullReglLink ∧
    (fullReglLink.Send 7).2.1 = none ∧
    (fullReglLink.Send 7).2.2.count FrameEvent.returnedToPool = 0 := by
  have h : ¬ fullReglLink.sendQueueRegl.length < reglQueueCap := by
    simp [fullReglLink]
  simp [LinkState.Send, h]

/-- Claim C1 (amended): Send and SendPriority perform a non-blocking offer
and always return a nil error; when the destination queue has a free slot
the frame is enqueued exactly once and the other queue is untouched; when
the queue is full the state is unchanged (the frame is silently dropped,
not buffered, not reported) and the drop path performs no operation on the
frame, in particular it does not return it to the pool; no frame is
duplicated. -/
theorem send_nonblocking_offer (link : LinkState) (f : Frame) :
    ((link.SendPriority f).2.1 = none ∧ (link.Send f).2.1 = none) ∧
    (link.sendQueuePrio.length < prioQueueCap →
      (link.SendPriority f).1 =
        { link with sendQueuePrio := link.sendQueuePrio ++ [f] } ∧
      (link.SendPriority f).1.sendQueuePrio.count f
        = link.sendQueuePrio.count f + 1 ∧
      (link.SendPriority f).1.sendQueueRegl = link.sendQueueRegl) ∧
    (prioQueueCap ≤ link.sendQueuePrio.length →
      (link.SendPriority f).1 = link ∧
      (link.SendPriority f).2.2.count FrameEvent.returnedToPool = 0) ∧
    (link.sendQueueRegl.length < reglQueueCap →
      (link.Send f).1 =
        { link with sendQueueRegl := link.sendQueueRegl ++ [f] } ∧
      (link.Send f).1.sendQueueRegl.count f
        = link.sendQueueRegl.count f + 1 ∧
      (link.Send f).1.sendQueuePrio = link.sendQueuePrio) ∧
    (reglQueueCap ≤ link.sendQueueRegl.length →
      (link.Send f).1 = link ∧
      (link.Send f).2.2.count FrameEvent.returnedToPool = 0) := by
  unfold LinkState.SendPriority LinkState.Send
  refine ⟨⟨?_, ?_⟩, ?_, ?_, ?_, ?_⟩
  · split <;> rfl
  · split <;> rfl
  · intro h
    rw [if_pos h]
    refine ⟨rfl, ?_, rfl⟩
    simp [List.count_append]
  · intro h
    rw [if_neg (by omega)]
    exact ⟨rfl, rfl⟩
  · intro h
    rw [if_pos h]
    refine ⟨rfl, ?_, rfl⟩
    simp [List.count_append]
  · intro h
    rw [if_neg (by omega)]
    exact ⟨rfl, rfl⟩

/-- Claim C1 witness: sending on an empty regular queue enqueues the frame
exactly once. -/
theorem send_nonblocking_offer_witness :
    (LinkState.Send ⟨[], [], false, 20⟩ 7).1 = ⟨[], [7], false, 20⟩ :=
  ((send_nonblocking_offer ⟨[], [], false, 20⟩ 7).2.2.2.1 (by decide)).1

/-- Concrete link that is already closing. -/
def closingLink : LinkState :=
  { sendQueuePrio := [], sendQueueRegl := [], closing := true,
    latency := 10 }

/-- Claim C2 counterexample: on a link whose closing flag is true (so
IsClosing() returns true), Send and SendPriority still enqueue new frames;
the send paths never consult the closing flag. -/
theorem send_after_closing_cx :
    closingLink.IsClosing = true ∧
    (closingLink.Send 7).1.sendQueueRegl = [7] ∧
    (closingLink.SendPriority 8).1.sendQueuePrio = [8] := by
  decide

/-- Claim C2 (amended): the closing flag does not gate the send paths: Send
and SendPriority behave identically whatever the value of closing (the
queue effect and the returned error and events do not depend on it), and on
a link that is already closing a frame is still enqueued whenever the
destination queue has a free slot. Worker termination after close comes
from the connection being closed, not from a queue gate. -/
theorem send_ignores_closing (link : LinkState) (f : Frame) (b : Bool) :
    ((LinkState.Send { link with closing := b } f).1.sendQueueRegl
        = (link.Send f).1.sendQueueRegl ∧
      (LinkState.Send { link with closing := b } f).2 = (link.Send f).2) ∧
    ((LinkState.SendPriority { link with closing := b } f).1.sendQueuePrio
        = (link.SendPriority f).1.sendQueuePrio ∧
      (LinkState.SendPriority { link with closing := b } f).2
        = (link.SendPriority f).2) ∧
    (link.closing = true → link.sendQueueRegl.length < reglQueueCap →
      (link.Send f).1.sendQueueRegl = link.sendQueueRegl ++ [f]) ∧
    (link.closing = true → link.sendQueuePrio.length < prioQueueCap →
      (link.SendPriority f).1.sendQueuePrio = link.sendQueuePrio ++ [f]) := by
  unfold LinkState.Send LinkState.SendPriority
  refine ⟨⟨?_, ?_⟩, ⟨?_, ?_⟩, ?_, ?_⟩
  · split <;> rfl
  · split <;> rfl
  · split <;> rfl
  · split <;> rfl
  · intro _ h
    rw [if_pos h]
  · intro _ h
    rw [if_pos h]

/-- Claim C2 witness: on the concrete closing link, Send enqueues. -/
theorem send_ignores_closing_witness :
    (closingLink.Send 7).1.sendQueueRegl = [] ++ [7] :=
  (send_ignores_closing closingLink 7 true).2.2.1 rfl (by decide)

/-- Concrete link whose regular queue holds 200 frames (of 1000 slots). -/
def link200 : LinkState :=
  { sendQueuePrio := [], sendQueueRegl := List.replicate 200 0,
    closing := false, latency := 10 }

/-- Claim C6 counterexample: with 200 frames on the 1000-slot regular queue
the fill ratio is 20 percent, below the 30 percent threshold, so
FlowControlIndicator returns IncreaseFlow and not HoldFlow as the claim
states for this input. -/
theorem flowControl_at_200_cx :
    link200.FlowControlIndicator = FlowControlFlag.increaseFlow ∧
    FlowControlFlag.increaseFlow ≠ FlowControlFlag.holdFlow := by
  constructor
  · have h : link200.sendQueueRegl.length = 200 := List.length_replicate 200 0
    simp [LinkState.FlowControlIndicator, h, reglQueueCap]
  · decide

/-- Claim C6 (amended): FlowControlIndicator is computed from the
regular-queue fill ratio only: at least 70 percent (at least 700 of the
1000 slots) yields DecreaseFlow, at least 30 percent (at least 300 slots)
yields HoldFlow, anything below yields IncreaseFlow; on a 1000-slot regular
queue holding 700 frames it returns DecreaseFlow, at 200 frames it returns
IncreaseFlow (not HoldFlow: 20 percent is below the 30 percent threshold),
and at 10 frames it returns IncreaseFlow. The priority queue is excluded:
the result does not depend on it. -/
theorem flowControl_spec (link : LinkState) :
    (700 ≤ link.sendQueueRegl.length →
      link.FlowControlIndicator = FlowControlFlag.decreaseFlow) ∧
    (300 ≤ link.sendQueueRegl.length → link.sendQueueRegl.length < 700 →
      link.FlowControlIndicator = FlowControlFlag.holdFlow) ∧
    (link.sendQueueRegl.length < 300 →
      link.FlowControlIndicator = FlowControlFlag.increaseFlow) ∧
    (∀ prioQ : List Frame,
      LinkState.FlowControlIndicator { link with sendQueuePrio := prioQ }
        = link.FlowControlIndicator) ∧
    LinkState.FlowControlIndicator
      { link with sendQueueRegl := List.replicate 700 0 }
      = FlowControlFlag.decreaseFlow ∧
    LinkState.FlowControlIndicator
      { link with sendQueueRegl := List.replicate 200 0 }
      = FlowControlFlag.increaseFlow ∧
    LinkState.FlowControlIndicator
      { link with sendQueueRegl := List.replicate 10 0 }
      = FlowControlFlag.increaseFlow := by
  unfold LinkState.FlowControlIndicator reglQueueCap
  refine ⟨?_, ?_, ?_, ?_, ?_, ?_, ?_⟩
  · intro h
    rw [if_pos (by omega)]
  · intro h1 h2
    rw [if_neg (by omega), if_pos (by omega)]
  · intro h
    rw [if_neg (by omega), if_neg (by omega)]
  · intro prioQ
    rfl
  · rw [show ({ link with sendQueueRegl := List.replicate 700 0 } :
        LinkState).sendQueueRegl.length = 700 from List.length_replicate 700 0]
    norm_num
  · rw [show ({ link with sendQueueRegl := List.replicate 200 0 } :
        LinkState).sendQueueRegl.length = 200 from List.length_replicate 200 0]
    norm_num
  · rw [show ({ link with sendQueueRegl := List.replicate 10 0 } :
        LinkState).sendQueueRegl.length = 10 from List.length_replicate 10 0]
    norm_num

/-- Claim C6 witness: a queue with 700 frames reports DecreaseFlow. -/
theorem flowControl_spec_witness :
    LinkState.FlowControlIndicator ⟨[], List.replicate 700 0, false, 10⟩
      = FlowControlFlag.decreaseFlow :=
  (flowControl_spec ⟨[], List.replicate 700 0, false, 10⟩).1
    (by rw [show (⟨[], List.replicate 700 0, false, 10⟩ :
        LinkState).sendQueueRegl.length = 700 from List.length_replicate 700 0])

/-- Every private IPv4 address is a global unicast address: the private
ranges contain no broadcast, unspecified, loopback, multicast or link-local
address. This mirrors the Go documentation note that IsGlobalUnicast
returns true for private address space. -/
theorem isPrivate_isGlobalUnicast (a : IPv4) (h : a.isPrivate = true) :
    a.isGlobalUnicast = true := by
  simp only [IPv4.isPrivate, decide_eq_true_eq] at h
  simp only [IPv4.isGlobalUnicast, IPv4.isBroadcast, IPv4.isUnspecified,
    IPv4.isLoopback, IPv4.isMulticast, IPv4.isLinkLocalUnicast,
    decide_eq_true_eq]
  constructor
  · simp only [decide_eq_false_iff_not]
    omega
  constructor
  · simp only [decide_eq_false_iff_not]
    omega
  constructor
  · simp only [decide_eq_false_iff_not]
    omega
  constructor
  · simp only [decide_eq_false_iff_not]
    omega
  · simp only [decide_eq_false_iff_not]
    omega

/-- Claim C7 counterexample: the private address 192.168.1.1 (IsPrivate is
true for it) seeds a fallback latency of 20 milliseconds, not 5: Go's
IsGlobalUnicast is true for private addresses and getFallbackLatency checks
it first. -/
theorem fallbackLatency_private_cx :
    IPv4.isPrivate ⟨192, 168, 1, 1⟩ = true ∧
    IPv4.isGlobalUnicast ⟨192, 168, 1, 1⟩ = true ∧
    (newLinkBase (RemoteAddr.tcp ⟨192, 168, 1, 1⟩)).latency = 20 ∧
    (20 : Nat) ≠ 5 := by
  decide

/-- Claim C7 (amended): at link construction the fallback one-way latency
is seeded by the remote address class: 20 milliseconds for a global unicast
remote address, which includes every private remote address (the 5
millisecond branch is dead for them because the global unicast test runs
first), 10 milliseconds for loopback and other non-global-unicast
addresses, and 20 milliseconds by default when the remote address is not a
TCP, UDP or IP address. -/
theorem fallbackLatency_spec (a : IPv4) :
    (newLinkBase RemoteAddr.other).latency = 20 ∧
    (a.isGlobalUnicast = true →
      (newLinkBase (RemoteAddr.tcp a)).latency = 20) ∧
    (a.isPrivate = true →
      a.isGlobalUnicast = true ∧
        (newLinkBase (RemoteAddr.tcp a)).latency = 20) ∧
    (a.isGlobalUnicast = false →
      (newLinkBase (RemoteAddr.tcp a)).latency = 10) ∧
    (newLinkBase (RemoteAddr.udp a)).latency
      = (newLinkBase (RemoteAddr.tcp a)).latency ∧
    (newLinkBase (RemoteAddr.ipAddr a)).latency
      = (newLinkBase (RemoteAddr.tcp a)).latency := by
  refine ⟨rfl, ?_, ?_, ?_, rfl, rfl⟩
  · intro h
    simp [newLinkBase, getFallbackLatency, h]
  · intro h
    have hg := isPrivate_isGlobalUnicast a h
    exact ⟨hg, by simp [newLinkBase, getFallbackLatency, hg]⟩
  · intro h
    have hp : a.isPrivate = false := by
      cases hp : a.isPrivate with
      | false => rfl
      | true => rw [isPrivate_isGlobalUnicast a hp] at h; cases h
    simp [newLinkBase, getFallbackLatency, h, hp]

/-- Claim C7 witness: the loopback address 127.0.0.1 seeds 10 ms and the
global unicast address 1.1.1.1 seeds 20 ms. -/
theorem fallbackLatency_spec_witness :
    (newLinkBase (RemoteAddr.tcp ⟨127, 0, 0, 1⟩)).latency = 10 ∧
    (newLinkBase (RemoteAddr.tcp ⟨1, 1, 1, 1⟩)).latency = 20 :=
  ⟨(fallbackLatency_spec ⟨127, 0, 0, 1⟩).2.2.2.1 (by decide),
    (fallbackLatency_spec ⟨1, 1, 1, 1⟩).2.1 (by decide)⟩

/-- Claim C10: writeFrame returns the frame to the pool exactly once before
returning, on every path: the deferred ReturnToPool is the final event of
every branch, including the error paths where the margin computation fails,
sealing fails, the frame is too big for the unencrypted 16-bit length
prefix, or the network write fails. -/
theorem writeFrame_pool_once (env : WriteEnv) :
    (writeFrame env).2.count FrameEvent.returnedToPool = 1 ∧
    (writeFrame env).2.getLast? = some FrameEvent.returnedToPool ∧
    (env.encSession = true → env.marginsOk = false →
      (writeFrame env).1 = Except.error WriteErr.margins) ∧
    (env.encSession = true → env.marginsOk = true → env.sealOk = false →
      (writeFrame env).1 = Except.error WriteErr.seal) ∧
    (env.encSession = false → env.marginsOk = true →
      0xFFFF < env.frameLen →
      (writeFrame env).1 = Except.error (WriteErr.tooBig env.frameLen)) ∧
    (env.marginsOk = true → env.sealOk = true →
      env.frameLen ≤ 0xFFFF → env.netWriteOk = false →
      (writeFrame env).1 = Except.error WriteErr.write) := by
  unfold writeFrame
  split_ifs <;> simp_all <;> decide

/-- Claim C10 witness: a frame of 70000 bytes on the unencrypted path is
rejected as too big for the 16-bit length prefix. -/
theorem writeFrame_pool_once_witness :
    (writeFrame ⟨false, true, true, 70000, true⟩).1
        = Except.error (WriteErr.tooBig 70000) ∧
      (writeFrame ⟨false, true, true, 70000, true⟩).2.count
        FrameEvent.returnedToPool = 1 :=
  ⟨(writeFrame_pool_once ⟨false, true, true, 70000, true⟩).2.2.2.2.1
      rfl rfl (by decide),
    (writeFrame_pool_once ⟨false, true, true, 70000, true⟩).1⟩

/-- Draining with an empty priority queue returns the regular queue in
order (up to the available fuel). -/
theorem writerDrain_nil_prio (fuel : Nat) :
    ∀ rs : List Frame, writerDrain fuel [] rs = rs.take fuel := by
  induction fuel with
  | zero => intro rs; rfl
  | succ n ih =>
    intro rs
    cases rs with
    | nil => rfl
    | cons g gs => simp [writerDrain, writerSelect, ih]

/-- Claim C5: whenever the priority queue is non-empty at the moment the
writer selects its next frame, the selected frame comes from the priority
queue (the regular queue is untouched); consequently, on a link whose
regular queue holds any number of queued frames, a frame offered through
SendPriority is written before all of the already-queued regular frames. -/
theorem writer_strict_priority :
    (∀ (prioQ reglQ : List Frame) (done : Bool) (f : Frame)
        (restP : List Frame), prioQ = f :: restP →
      writerSelect prioQ reglQ done
        = (WriterPick.fromPrio f, restP, reglQ)) ∧
    (∀ (p : Frame) (rs : List Frame) (lat : Nat),
      writerDrain (rs.length + 1)
        ((LinkState.SendPriority ⟨[], rs, false, lat⟩ p).1.sendQueuePrio)
        ((LinkState.SendPriority ⟨[], rs, false, lat⟩ p).1.sendQueueRegl)
        = p :: rs) := by
  constructor
  · intro prioQ reglQ done f restP h
    rw [h]
    rfl
  · intro p rs lat
    have hq : (LinkState.SendPriority ⟨[], rs, false, lat⟩ p).1
        = ⟨[p], rs, false, lat⟩ := by
      unfold LinkState.SendPriority
      rw [if_pos (by simp [prioQueueCap])]
      rfl
    rw [hq]
    show writerDrain (rs.length + 1) [p] rs = p :: rs
    simp [writerDrain, writerSelect, writerDrain_nil_prio]

/-- Claim C5 witness: with priority frame 3 pending and regular frames 4
and 5 queued, the writer selects 3 from the priority queue. -/
theorem writer_strict_priority_witness :
    writerSelect [3] [4, 5] false = (WriterPick.fromPrio 3, [], [4, 5]) :=
  writer_strict_priority.1 [3] [4, 5] false 3 [] rfl

/-- Claim C9: handleResponse removes the PingState registered under the
ping id of the header; when no state exists it returns the noState error;
when the decoded msg field is not pong it returns an error (the state stays
removed); otherwise it fires the completion signal, and a second response
for the same ping id can never fire it again (at most once); Clean evicts
exactly those PingStates whose expiry timestamp is strictly in the past. -/
theorem pingPong_response_spec (active : PingActive) (pingID now : Nat) :
    (active pingID = none → ∀ d,
      handleResponse active pingID d
        = (active, some PingErr.noState, false)) ∧
    (∀ st, active pingID = some st →
      (∀ d, (handleResponse active pingID d).1 pingID = none) ∧
      (handleResponse active pingID (some "pong")).2 = (none, true) ∧
      (handleResponse active pingID none).2
        = (some PingErr.unmarshal, false) ∧
      (∀ s, s ≠ "pong" →
        (handleResponse active pingID (some s)).2
          = (some PingErr.invalidResponse, false)) ∧
      (∀ d d2,
        (handleResponse (handleResponse active pingID d).1 pingID d2).2
          = (some PingErr.noState, false))) ∧
    (∀ j st, cleanActive active now j = some st ↔
      active j = some st ∧ now ≤ st.expires) := by
  refine ⟨?_, ?_, ?_⟩
  · intro h d
    simp [handleResponse, pluckActive, h]
  · intro st h
    have hplucked : ∀ d, (handleResponse active pingID d).1 pingID = none := by
      intro d
      cases d with
      | none => simp [handleResponse, pluckActive, h]
      | some s =>
        by_cases hs : s = "pong" <;>
          simp [handleResponse, pluckActive, h, hs]
    refine ⟨hplucked, ?_, ?_, ?_, ?_⟩
    · simp [handleResponse, pluckActive, h]
    · simp [handleResponse, pluckActive, h]
    · intro s hs
      simp [handleResponse, pluckActive, h, hs]
    · intro d d2
      have h2 := hplucked d
      revert h2
      generalize (handleResponse active pingID d).1 = M
      intro h2
      simp [handleResponse, pluckActive, h2]
  · intro j st
    unfold cleanActive
    cases hj : active j with
    | none => simp
    | some st2 =>
      show (if st2.expires < now then none else some st2) = some st ↔
        some st2 = some st ∧ now ≤ st.expires
      by_cases he : st2.expires < now
      · rw [if_pos he]
        constructor
        · intro hx
          cases hx
        · rintro ⟨h1, h2⟩
          cases h1
          omega
      · rw [if_neg he]
        constructor
        · intro hx
          cases hx
          exact ⟨rfl, by omega⟩
        · rintro ⟨h1, _⟩
          exact h1

/-- Concrete active map with one PingState registered under ping id 7. -/
def activeW : PingActive :=
  fun j => if j = 7 then some ⟨0, 30⟩ else none

/-- Claim C9 witness: a pong response for the registered ping id 7 fires
the signal with no error; a response for the unknown ping id 9 fails with
the noState error. -/
theorem pingPong_response_spec_witness :
    (handleResponse activeW 7 (some "pong")).2 = (none, true) ∧
    handleResponse activeW 9 none = (activeW, some PingErr.noState, false) :=
  ⟨((pingPong_response_spec activeW 7 0).2.1 ⟨0, 30⟩ rfl).2.1,
    (pingPong_response_spec activeW 9 0).1 rfl none⟩

/-- The setup loop only consults the read and handle outcomes of the
iterations it actually runs: environments that agree on indices i up to
i + remaining - 1 (and on writeFrame outcomes) produce the same result. -/
theorem setupLoop_congr (env₁ env₂ : SetupEnv)
    (hw : env₁.writeOk = env₂.writeOk) :
    ∀ (remaining i : Nat),
      (∀ j, i ≤ j → j < i + remaining →
        env₁.readOutcome j = env₂.readOutcome j ∧
        env₁.handleOutcome j = env₂.handleOutcome j) →
      setupLoop env₁ i remaining = setupLoop env₂ i remaining := by
  intro remaining
  induction remaining with
  | zero => intro i h; rfl
  | succ r ih =>
    intro i h
    have hr := (h i (le_refl i) (by omega)).1
    have hh := (h i (le_refl i) (by omega)).2
    cases hread : env₁.readOutcome i with
    | none => simp [setupLoop, ← hr, ← hh, ← hw, hread]
    | some f =>
      cases hstep : env₁.handleOutcome i f with
      | fail g => simp [setupLoop, ← hr, ← hh, ← hw, hread, hstep]
      | done => simp [setupLoop, ← hr, ← hh, ← hw, hread, hstep]
      | respond g =>
        cases hwrite : env₁.writeOk g with
        | false => simp [setupLoop, ← hr, ← hh, ← hw, hread, hstep, hwrite]
        | true =>
          simp only [setupLoop, ← hr, ← hh, ← hw, hread, hstep, hwrite,
            if_true]
          exact ih (i + 1) (fun j hj1 hj2 => h j (by omega) (by omega))

/-- Claim C4: handleSetupMessages writes the initial peering request and
then handles at most three incoming setup messages (its result only depends
on the read and handle outcomes of messages 1 to 3); when each of the three
handled messages still produces a response, it fails with the tooMuchSetup
error; and on any error of the setup chain the link is closed, never added
to the registry, and the reader and writer workers are not started. -/
theorem handleSetup_spec :
    (∀ (env : SetupEnv) (f0 : Frame), env.createOutcome = some f0 →
      env.writeOk f0 = true →
      (∀ i, 1 ≤ i → i ≤ 3 → ∃ f g, env.readOutcome i = some f ∧
        env.handleOutcome i f = HandleStep.respond g ∧
        env.writeOk g = true) →
      handleSetupMessages env = Except.error SetupErr.tooMuchSetup) ∧
    (∀ env₁ env₂ : SetupEnv, env₁.createOutcome = env₂.createOutcome →
      env₁.writeOk = env₂.writeOk →
      (∀ i, 1 ≤ i → i ≤ 3 →
        env₁.readOutcome i = env₂.readOutcome i ∧
        env₁.handleOutcome i = env₂.handleOutcome i) →
      handleSetupMessages env₁ = handleSetupMessages env₂) ∧
    (∀ (env : SetupEnv) (finalizeOk labelOk addOk : Bool),
      (handleSetup env finalizeOk labelOk addOk).err ≠ none →
      (handleSetup env finalizeOk labelOk addOk).registered = false ∧
      (handleSetup env finalizeOk labelOk addOk).workersStarted = false ∧
      (handleSetup env finalizeOk labelOk addOk).closed = true) ∧
    (∀ (env : SetupEnv) (e : SetupErr) (finalizeOk labelOk addOk : Bool),
      handleSetupMessages env = Except.error e →
      handleSetup env finalizeOk labelOk addOk =
        { err := some (SetupChainErr.fromMessages e), registered := false,
          workersStarted := false, closed := true }) := by
  refine ⟨?_, ?_, ?_, ?_⟩
  · intro env f0 hc hw h
    obtain ⟨f1, g1, hr1, hh1, hw1⟩ := h 1 (by omega) (by omega)
    obtain ⟨f2, g2, hr2, hh2, hw2⟩ := h 2 (by omega) (by omega)
    obtain ⟨f3, g3, hr3, hh3, hw3⟩ := h 3 (by omega) (by omega)
    simp only [handleSetupMessages, hc, hw, if_true, setupLoop,
      hr1, hh1, hw1, hr2, hh2, hw2, hr3, hh3, hw3]
  · intro env₁ env₂ hc hw h
    cases hcreate : env₁.createOutcome with
    | none => simp [handleSetupMessages, ← hc, ← hw, hcreate]
    | some f0 =>
      cases hwf : env₁.writeOk f0 with
      | false => simp [handleSetupMessages, ← hc, ← hw, hcreate, hwf]
      | true =>
        have e1 : handleSetupMessages env₁ = setupLoop env₁ 1 3 := by
          simp only [handleSetupMessages, hcreate, hwf, if_true]
        have e2 : handleSetupMessages env₂ = setupLoop env₂ 1 3 := by
          simp only [handleSetupMessages, ← hc, ← hw, hcreate, hwf, if_true]
        rw [e1, e2]
        exact setupLoop_congr env₁ env₂ hw 3 1
          (fun j hj1 hj2 => h j (by omega) (by omega))
  · intro env finalizeOk labelOk addOk herr
    revert herr
    unfold handleSetup
    cases handleSetupMessages env with
    | error e => intro herr; exact ⟨rfl, rfl, rfl⟩
    | ok u =>
      cases finalizeOk with
      | false => intro herr; exact ⟨rfl, rfl, rfl⟩
      | true =>
        cases labelOk with
        | false => intro herr; exact ⟨rfl, rfl, rfl⟩
        | true =>
          cases addOk with
          | false => intro herr; exact ⟨rfl, rfl, rfl⟩
          | true => intro herr; exact absurd rfl herr
  · intro env e finalizeOk labelOk addOk he
    unfold handleSetup
    rw [he]

/-- Environment in which the handshake state machine produces a response
on every handled message, so the exchange never terminates. -/
def setupEnvW : SetupEnv :=
  { createOutcome := some 0, readOutcome := fun _ => some 0,
    handleOutcome := fun _ _ => HandleStep.respond 0,
    writeOk := fun _ => true }

/-- Claim C4 witness: with a state machine that responds to all three
handled messages, the setup fails with tooMuchSetup. -/
theorem handleSetup_spec_witness :
    handleSetupMessages setupEnvW = Except.error SetupErr.tooMuchSetup :=
  handleSetup_spec.1 setupEnvW 0 rfl rfl
    (fun _ _ _ => ⟨0, 0, rfl, rfl, rfl⟩)

/-- When every generated label in the window is absent, zero or claimed,
the bounded random loop yields nothing. -/
theorem tryLabels_none (gen : Nat → Option Nat) (claimed : Nat → Bool) :
    ∀ (n s : Nat),
      (∀ i, i < n → ∀ lab, gen (s + i) = some lab →
        lab = 0 ∨ claimed lab = true) →
      tryLabels gen claimed s n = none := by
  intro n
  induction n with
  | zero => intro s _; rfl
  | succ r ih =>
    intro s h
    have hnext :
        ∀ i, i < r → ∀ lab, gen (s + 1 + i) = some lab →
          lab = 0 ∨ claimed lab = true := by
      intro i hi lab hl
      refine h (i + 1) (by omega) lab ?_
      rw [show s + (i + 1) = s + 1 + i by omega]
      exact hl
    cases hg : gen s with
    | none =>
      simp only [tryLabels, hg]
      exact ih (s + 1) hnext
    | some lab =>
      have hbad := h 0 (by omega) lab (by rw [Nat.add_zero]; exact hg)
      simp only [tryLabels, hg]
      rw [if_neg ?_]
      · exact ih (s + 1) hnext
      · intro hx
        rcases hbad with h0 | hc
        · exact hx.1 h0
        · rw [hc] at hx
          exact Bool.noConfusion hx.2

/-- The bounded random loop returns the first generated label that is
non-zero and unclaimed, when one exists inside the window. -/
theorem tryLabels_first (gen : Nat → Option Nat) (claimed : Nat → Bool) :
    ∀ (n s j l : Nat), j < n →
      (∀ i, i < j → ∀ lab, gen (s + i) = some lab →
        lab = 0 ∨ claimed lab = true) →
      gen (s + j) = some l → l ≠ 0 → claimed l = false →
      tryLabels gen claimed s n = some l := by
  intro n
  induction n with
  | zero => intro s j l hj; omega
  | succ r ih =>
    intro s j l hj hblock hg hl0 hlc
    cases j with
    | zero =>
      rw [Nat.add_zero] at hg
      simp only [tryLabels, hg]
      rw [if_pos ⟨hl0, hlc⟩]
    | succ k =>
      have hshift : gen (s + 1 + k) = some l := by
        rw [show s + 1 + k = s + (k + 1) by omega]
        exact hg
      have hblock2 :
          ∀ i, i < k → ∀ lab, gen (s + 1 + i) = some lab →
            lab = 0 ∨ claimed lab = true := by
        intro i hi lab hl
        refine hblock (i + 1) (by omega) lab ?_
        rw [show s + (i + 1) = s + 1 + i by omega]
        exact hl
      cases hg0 : gen s with
      | none =>
        simp only [tryLabels, hg0]
        exact ih (s + 1) k l (by omega) hblock2 hshift hl0 hlc
      | some lab =>
        have hbad := hblock 0 (by omega) lab (by rw [Nat.add_zero]; exact hg0)
        simp only [tryLabels, hg0]
        rw [if_neg ?_]
        · exact ih (s + 1) k l (by omega) hblock2 hshift hl0 hlc
        · intro hx
          rcases hbad with h0 | hc
          · exact hx.1 h0
          · rw [hc] at hx
            exact Bool.noConfusion hx.2

/-- Environment refuting the claimed else-chain: routable peer, no usable
derived label, all short random attempts fail, first long attempt yields
label 5. -/
def labelEnvCx : LabelEnv :=
  { derived := none, claimed := fun _ => false, routable := true,
    randShort := fun _ => none, randLong := fun _ => some 5 }

/-- Claim C8 counterexample: for a routable peer whose 100 short random
attempts all fail, the source still runs the 1000 long-label attempts and
assigns the first usable long label (5), while the else-chain stated by the
claim (long labels only when the peer is NOT routable) would fail the
setup. -/
theorem assignSwitchLabel_routable_long_cx :
    labelEnvCx.routable = true ∧
    assignSwitchLabel labelEnvCx = some 5 ∧
    assignSwitchLabelSpec labelEnvCx = none := by
  refine ⟨rfl, ?_, ?_⟩ <;> decide

/-- Claim C8 (amended): assignSwitchLabel first accepts the deterministic
label derived from the peer IP when it is non-zero and unclaimed; else,
when the peer IP is routable, it tries up to 100 random short labels and
accepts the first usable one; else — whether or not the peer IP is
routable, so also when the 100 short attempts of a routable peer all
failed — it tries up to 1000 random long labels and accepts the first
usable one; and when all of these fail the whole setup fails with the
label-exhausted error. -/
theorem assignSwitchLabel_chain (env : LabelEnv) :
    (∀ l, env.derived = some l → l ≠ 0 → env.claimed l = false →
      assignSwitchLabel env = some l) ∧
    ((∀ l, env.derived = some l → l = 0 ∨ env.claimed l = true) →
      env.routable = true →
      ∀ j l, j < 100 →
        (∀ i, i < j → ∀ lab, env.randShort i = some lab →
          lab = 0 ∨ env.claimed lab = true) →
        env.randShort j = some l → l ≠ 0 → env.claimed l = false →
        assignSwitchLabel env = some l) ∧
    ((∀ l, env.derived = some l → l = 0 ∨ env.claimed l = true) →
      (env.routable = false ∨
        ∀ i, i < 100 → ∀ lab, env.randShort i = some lab →
          lab = 0 ∨ env.claimed lab = true) →
      ∀ j l, j < 1000 →
        (∀ i, i < j → ∀ lab, env.randLong i = some lab →
          lab = 0 ∨ env.claimed lab = true) →
        env.randLong j = some l → l ≠ 0 → env.claimed l = false →
        assignSwitchLabel env = some l) ∧
    ((∀ l, env.derived = some l → l = 0 ∨ env.claimed l = true) →
      (env.routable = false ∨
        ∀ i, i < 100 → ∀ lab, env.randShort i = some lab →
          lab = 0 ∨ env.claimed lab = true) →
      (∀ i, i < 1000 → ∀ lab, env.randLong i = some lab →
        lab = 0 ∨ env.claimed lab = true) →
      assignSwitchLabel env = none) := by
  have hDeriveNone :
      ∀ henv : (∀ l, env.derived = some l → l = 0 ∨ env.claimed l = true),
        (match env.derived with
          | some label =>
            if label ≠ 0 ∧ env.claimed label = false then some label
            else none
          | none => none) = (none : Option Nat) := by
    intro henv
    cases hd : env.derived with
    | none => rfl
    | some l =>
      show (if l ≠ 0 ∧ env.claimed l = false then some l else none) = none
      rw [if_neg ?_]
      intro hx
      rcases henv l hd with h0 | hc
      · exact hx.1 h0
      · rw [hc] at hx
        exact Bool.noConfusion hx.2
  have hShortNone :
      ∀ hsb : (env.routable = false ∨
          ∀ i, i < 100 → ∀ lab, env.randShort i = some lab →
            lab = 0 ∨ env.claimed lab = true),
        (if env.routable then tryLabels env.randShort env.claimed 0 100
          else none) = none := by
    intro hsb
    rcases hsb with hfalse | hblock
    · rw [hfalse]
      rfl
    · cases hroute : env.routable with
      | false => rfl
      | true =>
        simp only [if_true]
        refine tryLabels_none env.randShort env.claimed 100 0 ?_
        intro i hi lab hl
        refine hblock i hi lab ?_
        rwa [Nat.zero_add] at hl
  refine ⟨?_, ?_, ?_, ?_⟩
  · intro l hd hl0 hlc
    simp only [assignSwitchLabel, hd]
    rw [if_pos (⟨hl0, hlc⟩ : l ≠ 0 ∧ env.claimed l = false)]
  · intro hderive hroute j l hj hblock hg hl0 hlc
    have hfirst := tryLabels_first env.randShort env.claimed 100 0 j l hj
      (fun i hi lab hl => hblock i hi lab (by rwa [Nat.zero_add] at hl))
      (by rwa [Nat.zero_add]) hl0 hlc
    simp only [assignSwitchLabel, hDeriveNone hderive, hroute, if_true,
      hfirst]
  · intro hderive hsb j l hj hblock hg hl0 hlc
    have hfirst := tryLabels_first env.randLong env.claimed 1000 0 j l hj
      (fun i hi lab hl => hblock i hi lab (by rwa [Nat.zero_add] at hl))
      (by rwa [Nat.zero_add]) hl0 hlc
    simp only [assignSwitchLabel, hDeriveNone hderive, hShortNone hsb,
      hfirst]
  · intro hderive hsb hlong
    have hnone := tryLabels_none env.randLong env.claimed 1000 0
      (fun i hi lab hl => hlong i hi lab (by rwa [Nat.zero_add] at hl))
    simp only [assignSwitchLabel, hDeriveNone hderive, hShortNone hsb,
      hnone]

/-- Environment for the C8 witness: non-routable peer, no derived label,
first long attempt yields label 9. -/
def labelEnvW : LabelEnv :=
  { derived := none, claimed := fun _ => false, routable := false,
    randShort := fun _ => none, randLong := fun _ => some 9 }

/-- Claim C8 witness: a non-routable peer with no usable derived label gets
the first usable long random label. -/
theorem assignSwitchLabel_chain_witness :
    assignSwitchLabel labelEnvW = some 9 :=
  (assignSwitchLabel_chain labelEnvW).2.2.1
    (fun l h => Option.noConfusion h)
    (Or.inl rfl)
    0 9 (by omega)
    (fun i hi lab _ => absurd hi (Nat.not_lt_zero i))
    rfl (by omega) rfl

/-- When the stream holds at least the bytes still needed, the read loop
delivers exactly them (appended to the accumulator) and leaves the rest of
the stream untouched: each Read request is capped at cap bytes, so as long
as cap is positive the loop makes progress until readSoFar reaches
target. -/
theorem readLoop_complete (cap : Nat) (hcap : 1 ≤ cap) :
    ∀ (fuel : Nat) (stream acc : List Nat) (target readSoFar : Nat),
      stream.length + 1 ≤ fuel → target - readSoFar ≤ stream.length →
      readLoop fuel cap target readSoFar acc stream =
        some (acc ++ stream.take (target - readSoFar),
          stream.drop (target - readSoFar)) := by
  intro fuel
  induction fuel with
  | zero => intro stream acc target readSoFar hfuel _; omega
  | succ n ih =>
    intro stream acc target readSoFar hfuel hle
    by_cases hdone : target ≤ readSoFar
    · have h0 : target - readSoFar = 0 := by omega
      simp [readLoop, hdone, h0]
    · cases stream with
      | nil =>
        exfalso
        simp only [List.length_nil] at hle
        omega
      | cons x xs =>
        have hlen : (x :: xs).length = xs.length + 1 := List.length_cons x xs
        have hw1 : 1 ≤ min cap (target - readSoFar) := by omega
        have hwle : min cap (target - readSoFar) ≤ target - readSoFar :=
          Nat.min_le_right _ _
        have hchunk :
            ((x :: xs).take (min cap (target - readSoFar))).length
              = min cap (target - readSoFar) := by
          rw [List.length_take]
          rw [hlen] at hle ⊢
          omega
        simp only [readLoop, if_neg hdone, connRead]
        rw [hchunk]
        have hrec := ih ((x :: xs).drop (min cap (target - readSoFar)))
          (acc ++ (x :: xs).take (min cap (target - readSoFar)))
          target (readSoFar + min cap (target - readSoFar))
          (by rw [List.length_drop, hlen]; rw [hlen] at hfuel; omega)
          (by rw [List.length_drop, hlen]; rw [hlen] at hle; omega)
        rw [hrec]
        have etake :
            acc ++ (x :: xs).take (min cap (target - readSoFar))
                ++ ((x :: xs).drop (min cap (target - readSoFar))).take
                  (target - (readSoFar + min cap (target - readSoFar)))
              = acc ++ (x :: xs).take (target - readSoFar) := by
          rw [List.append_assoc, ← List.take_add]
          rw [show min cap (target - readSoFar)
              + (target - (readSoFar + min cap (target - readSoFar)))
              = target - readSoFar by omega]
        have edrop :
            ((x :: xs).drop (min cap (target - readSoFar))).drop
                (target - (readSoFar + min cap (target - readSoFar)))
              = (x :: xs).drop (target - readSoFar) := by
          rw [List.drop_drop]
          rw [show min cap (target - readSoFar)
              + (target - (readSoFar + min cap (target - readSoFar)))
              = target - readSoFar by omega]
        rw [etake, edrop]

/-- When the stream runs out before the needed bytes arrive, the read loop
fails with a read error (modelled as none). -/
theorem readLoop_short (cap : Nat) (hcap : 1 ≤ cap) :
    ∀ (fuel : Nat) (stream acc : List Nat) (target readSoFar : Nat),
      stream.length + 1 ≤ fuel → stream.length < target - readSoFar →
      readLoop fuel cap target readSoFar acc stream = none := by
  intro fuel
  induction fuel with
  | zero => intro stream acc target readSoFar hfuel _; omega
  | succ n ih =>
    intro stream acc target readSoFar hfuel hlt
    have hdone : ¬ target ≤ readSoFar := by omega
    cases stream with
    | nil => simp [readLoop, if_neg hdone, connRead]
    | cons x xs =>
      have hlen : (x :: xs).length = xs.length + 1 := List.length_cons x xs
      have hw1 : 1 ≤ min cap (target - readSoFar) := by omega
      have hchunk :
          ((x :: xs).take (min cap (target - readSoFar))).length
            = min (min cap (target - readSoFar)) (xs.length + 1) := by
        rw [List.length_take, hlen]
      simp only [readLoop, if_neg hdone, connRead]
      rw [hchunk]
      refine ih ((x :: xs).drop (min cap (target - readSoFar)))
        (acc ++ (x :: xs).take (min cap (target - readSoFar)))
        target
        (readSoFar + min (min cap (target - readSoFar)) (xs.length + 1))
        (by rw [List.length_drop, hlen]; rw [hlen] at hfuel; omega)
        (by rw [List.length_drop, hlen]; rw [hlen] at hlt; omega)

/-- Claim C3: readLengthAndData reads exactly the 2 length bytes first and
validates the announced big-endian length dataLen: any dataLen of at most 3
is rejected with the invalid-length error (in particular dataLen 3); when
dataLen exceeds the buffer length the reader drains and discards exactly
dataLen bytes from the wire counting the 2 length bytes (leaving the
stream aligned at the next record) and reports the non-fatal tooBig error,
which is distinct from the network error; otherwise it returns exactly the
first dataLen bytes of the buffer (the 2 length bytes followed by
dataLen - 2 payload bytes) and consumes exactly dataLen bytes. -/
theorem readLengthAndData_spec (bufLen b0 b1 : Nat) (rest : List Nat)
    (hbuf : 2 ≤ bufLen) :
    (256 * b0 + b1 ≤ 3 →
      readLengthAndData bufLen (b0 :: b1 :: rest) =
        (Except.error (ReadErr.invalidLength (256 * b0 + b1)), rest)) ∧
    (3 < 256 * b0 + b1 → bufLen < 256 * b0 + b1 →
      256 * b0 + b1 ≤ rest.length + 2 →
      readLengthAndData bufLen (b0 :: b1 :: rest) =
        (Except.error ReadErr.tooBig,
          List.drop (256 * b0 + b1 - 2) rest) ∧
      ReadErr.tooBig ≠ ReadErr.network) ∧
    (3 < 256 * b0 + b1 → 256 * b0 + b1 ≤ bufLen →
      256 * b0 + b1 ≤ rest.length + 2 →
      readLengthAndData bufLen (b0 :: b1 :: rest) =
        (Except.ok (b0 :: b1 :: List.take (256 * b0 + b1 - 2) rest),
          List.drop (256 * b0 + b1 - 2) rest) ∧
      (b0 :: b1 :: List.take (256 * b0 + b1 - 2) rest).length
        = 256 * b0 + b1) := by
  have hlen1 : readLoop ((b0 :: b1 :: rest).length + 1) 2 2 0 []
      (b0 :: b1 :: rest) = some ([b0, b1], rest) := by
    have h := readLoop_complete 2 (by omega) ((b0 :: b1 :: rest).length + 1)
      (b0 :: b1 :: rest) [] 2 0 (le_refl _)
      (by simp only [List.length_cons]; omega)
    simpa using h
  have hG : GetUint16 [b0, b1] = 256 * b0 + b1 := by
    simp [GetUint16]
  refine ⟨?_, ?_, ?_⟩
  · intro h3
    simp only [readLengthAndData, hlen1, hG]
    rw [if_pos h3]
  · intro h3 hbig hlen
    have hdrain : readLoop (rest.length + 1) bufLen (256 * b0 + b1) 2 []
        rest = some (List.take (256 * b0 + b1 - 2) rest,
          List.drop (256 * b0 + b1 - 2) rest) := by
      have h := readLoop_complete bufLen (by omega) (rest.length + 1) rest
        [] (256 * b0 + b1) 2 (le_refl _) (by omega)
      simpa using h
    refine ⟨?_, by decide⟩
    simp only [readLengthAndData, hlen1, hG, hdrain]
    rw [if_neg (by omega), if_pos hbig]
  · intro h3 hsmall hlen
    have hdata : readLoop (rest.length + 1) (256 * b0 + b1)
        (256 * b0 + b1) 2 [b0, b1] rest =
          some (b0 :: b1 :: List.take (256 * b0 + b1 - 2) rest,
            List.drop (256 * b0 + b1 - 2) rest) := by
      have h := readLoop_complete (256 * b0 + b1) (by omega)
        (rest.length + 1) rest [b0, b1] (256 * b0 + b1) 2 (le_refl _)
        (by omega)
      simpa using h
    refine ⟨?_, ?_⟩
    · simp only [readLengthAndData, hlen1, hG, hdata]
      rw [if_neg (by omega), if_neg (by omega)]
    · simp only [List.length_cons, List.length_take]
      omega

/-- Claim C3 witness: with a 5-byte buffer and the stream
0, 4, 9, 8, 7 (announced length 4), the reader returns the first 4 buffer
bytes 0, 4, 9, 8 and leaves the byte 7 unread on the stream. -/
theorem readLengthAndData_spec_witness :
    readLengthAndData 5 [0, 4, 9, 8, 7] = (Except.ok [0, 4, 9, 8], [7]) :=
  (((readLengthAndData_spec 5 0 4 [9, 8, 7] (by omega)).2.2 (by omega)
    (by omega) (by simp)).1)

end Mycoria
